import Mathlib

/-!
Verification of the container-launch tool in src/main.rs.

The program pulls a container image from a registry (auth token, manifest
list, platform manifest, layer blobs), unpacks the layers into a fixed
isolated root, bootstraps isolation (directory skeleton, helper binary
copy, chroot, pid-namespace request) and runs the target command,
forwarding its exit status.

The embedding below is shallow: network calls are abstracted as oracle
functions passed in explicitly, the host filesystem is an association
list from paths (component lists) to entries, the contents of the
isolated root is a map from path strings to file contents, and every
fallible step returns an Except value, mirroring the anyhow Result and
the question-mark propagation of the source.
-/

namespace Docker

/-- Character-level splitting as performed by the Rust str split method on
a single separator character: the empty input yields one empty piece and
every occurrence of the separator starts a new piece. -/
def rustSplit (c : Char) : List Char → List (List Char)
  | [] => [[]]
  | x :: xs =>
    match rustSplit c xs with
    | [] => [[]]
    | y :: ys => if x = c then [] :: y :: ys else (x :: y) :: ys

/-- The function parse_image of src/main.rs lines 76-87: split the image
reference on the colon character; one piece means no tag, so the tag
defaults to "latest"; two pieces are name and tag; anything else is the
error "Unexpected image name". -/
def parse_image (image : String) : Except String (String × String) :=
  match rustSplit ':' image.toList with
  | [name] => .ok (String.mk name, "latest")
  | [name, tag] => .ok (String.mk name, String.mk tag)
  | _ => .error "Unexpected image name"

/-- The platform field of one manifest-list entry (struct ManifestPlatform,
src/main.rs lines 116-122). -/
structure ManifestPlatform where
  architecture : String
  os : String
deriving DecidableEq

/-- One entry of the manifest list (struct Manifest, src/main.rs
lines 106-114). -/
structure Manifest where
  digest : String
  media_type : String
  platform : ManifestPlatform
  size : Nat
deriving DecidableEq

/-- The manifest list returned by the registry (struct ManifestResponse,
src/main.rs lines 97-104). -/
structure ManifestResponse where
  manifests : List Manifest
  media_type : String
  schema_version : Nat
deriving DecidableEq

/-- The config descriptor of an image manifest (struct ImageConfig,
src/main.rs lines 136-143). -/
structure ImageConfig where
  media_type : String
  digest : String
  size : Nat
deriving DecidableEq

/-- One layer descriptor of an image manifest (struct ImageLayer,
src/main.rs lines 145-153). -/
structure ImageLayer where
  media_type : String
  digest : String
  size : Nat
  urls : Option (List String)
deriving DecidableEq

/-- The optional subject descriptor of an image manifest (struct
ImageSubject, src/main.rs lines 155-162). -/
structure ImageSubject where
  media_type : String
  digest : String
  size : Nat
deriving DecidableEq

/-- The platform-specific image manifest (struct ImageManifest,
src/main.rs lines 124-134); annotations are modelled as an association
list instead of a hash map. -/
structure ImageManifest where
  schema_version : Nat
  media_type : String
  config : ImageConfig
  layers : List ImageLayer
  subject : Option ImageSubject
  annotations : Option (List (String × String))
deriving DecidableEq

/-- The function fetch_image_manifest of src/main.rs lines 235-272.
The network is abstracted by the oracle fetchNet, where an application
fetchNet digest mediaType models the authenticated GET of the manifest
endpoint for that digest with the Accept header set to mediaType.  The
source filters the manifest list for entries whose platform is
architecture amd64 and os linux, keeps digest and media type of each,
then loops over the result but returns inside the first iteration, so
only the head of the filtered list is ever fetched; an empty filtered
list yields the error "Failed to get platform image digest", and any
fetch or decode failure propagates out of the whole function. -/
def fetch_image_manifest (fetchNet : String → String → Except String ImageManifest)
    (manifest : ManifestResponse) : Except String ImageManifest :=
  let target_images :=
    (manifest.manifests.filter
        (fun m => m.platform.architecture == "amd64" && m.platform.os == "linux")).map
      (fun m => (m.digest, m.media_type))
  match target_images with
  | [] => .error "Failed to get platform image digest"
  | (digest, media_type) :: _ => fetchNet digest media_type

/-- The contents of the isolated root, as a map from path strings to file
contents. -/
abbrev RootFs := String → Option String

/-- Writing one extracted archive entry into the root, overwriting any
existing file at that path. -/
def writeEntry (fs : RootFs) (path content : String) : RootFs :=
  fun q => if q = path then some content else fs q

/-- Unpacking one layer archive into the root: the entries the gunzipped
tar archive holds are written in archive order, each overwriting any
existing path (the tar unpack semantics of src/main.rs lines 305-308). -/
def unpackLayer (fs : RootFs) (entries : List (String × String)) : RootFs :=
  entries.foldl (fun acc e => writeEntry acc e.1 e.2) fs

/-- The per-layer loop of download_image_from_manifest (src/main.rs
lines 282-309): for each layer in order, download the blob for the layer
digest with the Accept header set to the layer media type (abstracted as
the oracle blobStore, which returns the entries of the decompressed
archive), then unpack it into the root; any failure propagates
immediately and stops the remaining layers. -/
def unpackLayers (blobStore : String → String → Except String (List (String × String))) :
    List ImageLayer → RootFs → Except String RootFs
  | [], fs => .ok fs
  | layer :: rest, fs => do
    let entries ← blobStore layer.digest layer.media_type
    unpackLayers blobStore rest (unpackLayer fs entries)

/-- The function download_image_from_manifest of src/main.rs
lines 276-312: process the layers of the image manifest strictly in
manifest order. -/
def download_image_from_manifest
    (blobStore : String → String → Except String (List (String × String)))
    (manifest : ImageManifest) (fs : RootFs) : Except String RootFs :=
  unpackLayers blobStore manifest.layers fs

/-- A host filesystem entry: a directory or a regular file. -/
inductive FsEntry
  | dir
  | file
deriving DecidableEq

/-- A host path, as its list of components. -/
abbrev HostPath := List String

/-- The host filesystem, as an association list from paths to entries;
later additions are consed on the front and shadow older entries. -/
abbrev HostFs := List (HostPath × FsEntry)

/-- Look a path up in the host filesystem: the first matching entry
wins. -/
def lookupFs (fs : HostFs) (p : HostPath) : Option FsEntry :=
  match fs with
  | [] => none
  | (q, e) :: rest => if p = q then some e else lookupFs rest p

/-- The nonempty ancestor chain of a path, shortest first: for the path
a/b/c it is the list a, a/b, a/b/c. -/
def ancestors : HostPath → List HostPath
  | [] => []
  | x :: xs => [x] :: (ancestors xs).map (fun q => x :: q)

/-- The std fs create_dir_all call with an attached context message: it
fails with that message when some ancestor of the path already exists as
a regular file, and otherwise records every ancestor as a directory. -/
def create_dir_all (fs : HostFs) (p : HostPath) (msg : String) : Except String HostFs :=
  if (ancestors p).any (fun q => lookupFs fs q == some FsEntry.file) then .error msg
  else .ok (((ancestors p).map (fun q => (q, FsEntry.dir))) ++ fs)

/-- The std fs copy call with an attached context message: it fails with
that message unless the source exists as a regular file, and on success
records the destination as a regular file. -/
def copyFile (fs : HostFs) (src dst : HostPath) (msg : String) : Except String HostFs :=
  if lookupFs fs src == some FsEntry.file then .ok ((dst, FsEntry.file) :: fs)
  else .error msg

/-- The constant CHROOT_DIR of src/main.rs line 14, the fixed isolated
root /tmp/codecrafters. -/
def CHROOT_DIR : HostPath := ["tmp", "codecrafters"]

/-- The bin directory inside the isolated root, /tmp/codecrafters/usr/local/bin. -/
def usrLocalBin : HostPath := CHROOT_DIR ++ ["usr", "local", "bin"]

/-- The placeholder created at /tmp/codecrafters/dev/null. -/
def devNullDir : HostPath := CHROOT_DIR ++ ["dev", "null"]

/-- The host path of the docker-explorer helper binary. -/
def explorerSrc : HostPath := ["usr", "local", "bin", "docker-explorer"]

/-- The destination of the docker-explorer copy inside the isolated root. -/
def explorerDst : HostPath := usrLocalBin ++ ["docker-explorer"]

/-- The directory-creation step of the bootstrap, src/main.rs lines 34-38:
three create_dir_all calls for the isolated root, its usr/local/bin
subdirectory and its dev/null placeholder, each with its own context
message, each failure aborting immediately. -/
def bootstrap_dirs (fs : HostFs) : Except String HostFs := do
  let fs1 ← create_dir_all fs CHROOT_DIR "failed to create chroot directory"
  let fs2 ← create_dir_all fs1 usrLocalBin "failed to create chroot /usr/local/bin directory"
  create_dir_all fs2 devNullDir "failed to create chroot /dev/null directory"

/-- The full isolation bootstrap of src/main.rs lines 34-48: create the
directory skeleton, copy the docker-explorer binary into usr/local/bin of
the isolated root, then chroot into the isolated root (which requires it
to exist as a directory).  The returned filesystem is the host state at
the moment the root change happens. -/
def bootstrap (fs : HostFs) : Except String HostFs := do
  let fs3 ← bootstrap_dirs fs
  let fs4 ← copyFile fs3 explorerSrc explorerDst "failed to copy docker-explorer"
  if lookupFs fs4 CHROOT_DIR == some FsEntry.dir then .ok fs4 else .error "failed to chroot"

/-- The output of the child process: code models the ExitStatus code
method, which is none when the child was terminated by a signal. -/
structure ProcessOutput where
  code : Option Int
deriving DecidableEq

/-- The ambient effects of the program, abstracted as oracles.  httpAuth
models the auth function (token request for an image); httpManifestList
models the fetch_manifest function (name, tag, token); httpImageManifest
models the inner manifest GET of fetch_image_manifest (name, token,
digest, accept header); httpBlob models the blob GET of
download_image_from_manifest (name, token, digest, accept header),
returning the entries of the decompressed layer archive; hostFs is the
host filesystem the bootstrap operates on; unshareResult is the outcome
of the libc unshare call requesting the new pid namespace; runCommand
models spawning the target command and waiting for its output. -/
structure Env where
  httpAuth : String → Except String String
  httpManifestList : String → String → String → Except String ManifestResponse
  httpImageManifest : String → String → String → String → Except String ImageManifest
  httpBlob : String → String → String → String → Except String (List (String × String))
  hostFs : HostFs
  unshareResult : Except String Unit
  runCommand : String → List String → Except String ProcessOutput

/-- Lines 27-48 of main: parse the image reference, fetch the auth token,
fetch the manifest list, resolve and fetch the platform image manifest,
download and unpack the layers (the source discards the unit result with
a let underscore but propagates errors), then run the isolation bootstrap
up to and including the chroot.  Every step uses question-mark
propagation, so the first error aborts the rest. -/
def pipelineSetup (env : Env) (image : String) : Except String HostFs := do
  let nt ← parse_image image
  let token ← env.httpAuth image
  let manifest ← env.httpManifestList nt.1 nt.2 token
  let image_manifest ← fetch_image_manifest
      (fun d mt => env.httpImageManifest nt.1 token d mt) manifest
  let _ ← download_image_from_manifest
      (fun d mt => env.httpBlob nt.1 token d mt) image_manifest (fun _ => none)
  bootstrap env.hostFs

/-- The function main of src/main.rs lines 27-70, after command-line
parsing: run the retrieval pipeline and the bootstrap, request the new
pid namespace (the source calls libc unshare inside an unsafe block and
discards its return value, so the binding below is dead), run the target
command, and map its exit status to the program exit code: the code when
the child produced one, and 1 otherwise. -/
def mainRun (env : Env) (image command : String) (command_args : List String) :
    Except String Int := do
  let _ ← pipelineSetup env image
  let _unshare := env.unshareResult
  let output ← env.runCommand command command_args
  pure (output.code.getD 1)

/-- An arm64 linux manifest-list entry, used as concrete test data. -/
def armEntry : Manifest :=
  { digest := "sha256:arm", media_type := "mt-arm"
    platform := { architecture := "arm64", os := "linux" }, size := 10 }

/-- An amd64 linux manifest-list entry, used as concrete test data. -/
def amdEntry : Manifest :=
  { digest := "sha256:amd", media_type := "mt-amd"
    platform := { architecture := "amd64", os := "linux" }, size := 11 }

/-- A manifest list holding the arm64 entry before the amd64 entry. -/
def mrExample : ManifestResponse :=
  { manifests := [armEntry, amdEntry], media_type := "list-mt", schema_version := 2 }

/-- A manifest list holding only the arm64 entry. -/
def mrNoAmd : ManifestResponse :=
  { manifests := [armEntry], media_type := "list-mt", schema_version := 2 }

/-- A first concrete layer descriptor. -/
def layerOne : ImageLayer :=
  { media_type := "tar", digest := "sha256:l1", size := 5, urls := none }

/-- A second concrete layer descriptor. -/
def layerTwo : ImageLayer :=
  { media_type := "tar", digest := "sha256:l2", size := 6, urls := none }

/-- A concrete image manifest with the two layers above. -/
def imExample : ImageManifest :=
  { schema_version := 2, media_type := "mt"
    config := { media_type := "cfg", digest := "sha256:cfg", size := 1 }
    layers := [layerOne, layerTwo], subject := none, annotations := none }

/-- A concrete blob store where both layers write the same path, the
first with content from-l1 and the second with content from-l2. -/
def blobExample : String → String → Except String (List (String × String)) :=
  fun d _ =>
    if d = "sha256:l1" then .ok [("/etc/msg", "from-l1")]
    else if d = "sha256:l2" then .ok [("/etc/msg", "from-l2")]
    else .error "unknown blob"

/-- A host filesystem holding only the docker-explorer source binary. -/
def bootFs0 : HostFs := [(explorerSrc, FsEntry.file)]

/-- The host filesystem after a successful bootstrap over bootFs0. -/
def bootFs1 : HostFs := (bootstrap bootFs0).toOption.getD []

/-- The host filesystem after a successful bootstrap_dirs over the empty
filesystem. -/
def dirsFs1 : HostFs := (bootstrap_dirs []).toOption.getD []

/-- A concrete environment where every oracle succeeds. -/
def envBase : Env where
  httpAuth := fun _ => .ok "tok"
  httpManifestList := fun _ _ _ => .ok mrExample
  httpImageManifest := fun _ _ _ _ => .ok imExample
  httpBlob := fun _ _ _ _ => .ok []
  hostFs := bootFs0
  unshareResult := .ok ()
  runCommand := fun _ _ => .ok { code := some 0 }

/-- The base environment with a failing auth endpoint. -/
def envAuthFail : Env :=
  { envBase with httpAuth := fun _ => .error "failed to send request" }

/-- The base environment where the pid-namespace request fails. -/
def envUnshareFail : Env :=
  { envBase with unshareResult := .error "unshare failed" }

/-- The base environment where the child exits with code 7. -/
def envSeven : Env :=
  { envBase with runCommand := fun _ _ => .ok { code := some 7 } }

/-- Reduction of an Except bind on a success value. -/
@[simp]
theorem except_bind_ok {α β ε : Type} (a : α) (f : α → Except ε β) :
    (Except.ok a >>= f : Except ε β) = f a := rfl

/-- Reduction of an Except bind on an error value. -/
@[simp]
theorem except_bind_error {α β ε : Type} (e : ε) (f : α → Except ε β) :
    ((Except.error e : Except ε α) >>= f : Except ε β) = Except.error e := rfl

/-- The split of a string never yields an empty list of pieces. -/
theorem rustSplit_ne_nil (c : Char) (l : List Char) : rustSplit c l ≠ [] := by
  cases l with
  | nil => simp [rustSplit]
  | cons x xs =>
    simp only [rustSplit]
    cases h : rustSplit c xs with
    | nil => simp
    | cons y ys =>
      by_cases hx : x = c <;> simp [hx]

/-- A string without the separator splits into the single piece that is
the whole string. -/
theorem rustSplit_of_count_zero (c : Char) (l : List Char) (h : l.count c = 0) :
    rustSplit c l = [l] := by
  induction l with
  | nil => rfl
  | cons x xs ih =>
    rw [List.count_cons] at h
    have hx : ¬(x = c) := by
      intro hxc
      simp [hxc] at h
    have hxs : xs.count c = 0 := by
      omega
    simp [rustSplit, ih hxs, hx]

/-- A string with exactly one separator occurrence splits into the piece
before it and the piece after it. -/
theorem rustSplit_single (c : Char) (l1 l2 : List Char)
    (h1 : l1.count c = 0) (h2 : l2.count c = 0) :
    rustSplit c (l1 ++ c :: l2) = [l1, l2] := by
  induction l1 with
  | nil =>
    simp [List.nil_append, rustSplit, rustSplit_of_count_zero c l2 h2]
  | cons x xs ih =>
    rw [List.count_cons] at h1
    have hx : ¬(x = c) := by
      intro hxc
      simp [hxc] at h1
    have hxs : xs.count c = 0 := by
      omega
    simp [rustSplit, ih hxs, hx]

/-- The number of pieces is one more than the number of separator
occurrences. -/
theorem rustSplit_length (c : Char) (l : List Char) :
    (rustSplit c l).length = l.count c + 1 := by
  induction l with
  | nil => simp [rustSplit]
  | cons x xs ih =>
    simp only [rustSplit]
    cases h : rustSplit c xs with
    | nil => exact absurd h (rustSplit_ne_nil c xs)
    | cons y ys =>
      rw [h] at ih
      simp only [List.length_cons] at ih
      by_cases hx : x = c
      · simp only [if_pos hx, List.length_cons, List.count_cons, hx]
        simp
        omega
      · simp only [if_neg hx, List.length_cons, List.count_cons]
        simp [hx]
        omega

/-- Rebuilding a string from its character list gives the string back. -/
theorem string_mk_toList (s : String) : String.mk s.toList = s := rfl

/-- A list of length more than two starts with three elements. -/
theorem exists_three_of_two_lt {α : Type} (l : List α) (h : 2 < l.length) :
    ∃ a b d t, l = a :: b :: d :: t := by
  cases l with
  | nil => simp at h
  | cons a l1 =>
    cases l1 with
    | nil => simp at h
    | cons b l2 =>
      cases l2 with
      | nil => simp at h
      | cons d t => exact ⟨a, b, d, t, rfl⟩

/-- An input without a colon parses to itself with the default tag. -/
theorem parse_image_no_colon (image : String) (h : image.toList.count ':' = 0) :
    parse_image image = .ok (image, "latest") := by
  unfold parse_image
  rw [rustSplit_of_count_zero ':' image.toList h]
  rfl

/-- An input with exactly one colon parses to the pieces on either side
of the colon. -/
theorem parse_image_one_colon (image l r : String)
    (himg : image.toList = l.toList ++ ':' :: r.toList)
    (hl : l.toList.count ':' = 0) (hr : r.toList.count ':' = 0) :
    parse_image image = .ok (l, r) := by
  unfold parse_image
  rw [himg, rustSplit_single ':' l.toList r.toList hl hr]
  rfl

/-- An input with more than one colon is rejected. -/
theorem parse_image_many_colons (image : String) (h : 1 < image.toList.count ':') :
    parse_image image = .error "Unexpected image name" := by
  have hlen : 2 < (rustSplit ':' image.toList).length := by
    rw [rustSplit_length]
    omega
  obtain ⟨a, b, d, t3, hs⟩ := exists_three_of_two_lt (rustSplit ':' image.toList) hlen
  unfold parse_image
  rw [hs]

/-- C7: the reference parser returns the input with the tag "latest" when
the input has zero colons, returns the pieces left and right of the colon
when it has exactly one, and fails with the format error "Unexpected
image name" when it has more than one. -/
theorem parse_image_colon_cases (image : String) :
    (image.toList.count ':' = 0 → parse_image image = .ok (image, "latest")) ∧
    (∀ l r : String, image.toList = l.toList ++ ':' :: r.toList →
      l.toList.count ':' = 0 → r.toList.count ':' = 0 →
      parse_image image = .ok (l, r)) ∧
    (1 < image.toList.count ':' → parse_image image = .error "Unexpected image name") :=
  ⟨parse_image_no_colon image,
   fun l r himg hl hr => parse_image_one_colon image l r himg hl hr,
   parse_image_many_colons image⟩

/-- Witness for C7 at the input foo:bar. -/
theorem parse_image_colon_cases_witness :
    parse_image "foo:bar" = .ok ("foo", "bar") :=
  (parse_image_colon_cases "foo:bar").2.1 "foo" "bar" (by decide) (by decide) (by decide)

/-- C10: the parser keeps empty pieces around a single colon, so a
trailing colon yields the empty tag rather than the default, and the
empty input has zero colons and yields the default tag. -/
theorem parse_image_empty_components :
    (∀ l r : String, l.toList.count ':' = 0 → r.toList.count ':' = 0 →
      parse_image (l ++ ":" ++ r) = .ok (l, r)) ∧
    parse_image "" = .ok ("", "latest") := by
  constructor
  · intro l r hl hr
    apply parse_image_one_colon (l ++ ":" ++ r) l r _ hl hr
    show (l ++ ":" ++ r).data = l.data ++ ':' :: r.data
    simp [String.data_append]
  · exact parse_image_no_colon "" (by decide)

/-- Witness for C10 at the trailing-colon input: the tag comes back
empty, not defaulted. -/
theorem parse_image_empty_components_witness :
    parse_image ("foo" ++ ":" ++ "") = .ok ("foo", "") :=
  parse_image_empty_components.1 "foo" "" (by decide) (by decide)

/-- The Boolean platform filter of fetch_image_manifest holds exactly
when the platform is amd64 linux. -/
theorem target_platform_iff (m : Manifest) :
    (m.platform.architecture == "amd64" && m.platform.os == "linux") = true ↔
      (m.platform.architecture = "amd64" ∧ m.platform.os = "linux") := by
  simp [Bool.and_eq_true, beq_iff_eq]

/-- C1: for every manifest list, the resolver selects exactly the first
entry in list order whose platform is os linux and architecture amd64,
wherever non-matching entries appear, and fetches the image manifest for
that entry's digest with that entry's media type as the Accept header:
the result is exactly the network fetch at that digest and media type. -/
theorem fetch_image_manifest_selects_first
    (fetchNet : String → String → Except String ImageManifest)
    (mr : ManifestResponse) (pre post : List Manifest) (m : Manifest)
    (hsplit : mr.manifests = pre ++ m :: post)
    (hpre : ∀ x ∈ pre, ¬(x.platform.architecture = "amd64" ∧ x.platform.os = "linux"))
    (hm : m.platform.architecture = "amd64" ∧ m.platform.os = "linux") :
    fetch_image_manifest fetchNet mr = fetchNet m.digest m.media_type := by
  unfold fetch_image_manifest
  have hfpre : pre.filter
      (fun x => x.platform.architecture == "amd64" && x.platform.os == "linux") = [] := by
    rw [List.filter_eq_nil_iff]
    intro x hx
    rw [target_platform_iff]
    exact hpre x hx
  have hfm : (m.platform.architecture == "amd64" && m.platform.os == "linux") = true :=
    (target_platform_iff m).mpr hm
  rw [hsplit, List.filter_append, hfpre, List.nil_append, List.filter_cons, hfm]
  simp only [if_true]
  rfl

/-- Witness for C1: with the arm64 entry listed before the amd64 entry,
the resolver queries the amd64 digest and media type; the oracle echoes
its arguments into an error so the request is visible in the result. -/
theorem fetch_image_manifest_selects_first_witness :
    fetch_image_manifest (fun d mt => .error (d ++ "|" ++ mt)) mrExample
      = .error ("sha256:amd" ++ "|" ++ "mt-amd") :=
  fetch_image_manifest_selects_first (fun d mt => .error (d ++ "|" ++ mt)) mrExample
    [armEntry] [] amdEntry rfl (by decide) (by decide)

/-- C2: for every manifest list with no amd64 linux entry, the resolver
returns the platform-not-found error, and this holds for every network
oracle, so no image manifest is fetched. -/
theorem fetch_image_manifest_no_platform (mr : ManifestResponse)
    (h : ∀ m ∈ mr.manifests, ¬(m.platform.architecture = "amd64" ∧ m.platform.os = "linux")) :
    ∀ fetchNet, fetch_image_manifest fetchNet mr
      = .error "Failed to get platform image digest" := by
  intro fetchNet
  unfold fetch_image_manifest
  have hf : mr.manifests.filter
      (fun x => x.platform.architecture == "amd64" && x.platform.os == "linux") = [] := by
    rw [List.filter_eq_nil_iff]
    intro x hx
    rw [target_platform_iff]
    exact h x hx
  rw [hf]
  rfl

/-- Witness for C2 on a manifest list holding only an arm64 entry. -/
theorem fetch_image_manifest_no_platform_witness :
    fetch_image_manifest (fun _ _ => .error "net") mrNoAmd
      = .error "Failed to get platform image digest" :=
  fetch_image_manifest_no_platform mrNoAmd (by decide) (fun _ _ => .error "net")

/-- Unpacking a concatenation of entry lists unpacks the first list and
then the second. -/
theorem unpackLayer_append (fs : RootFs) (a b : List (String × String)) :
    unpackLayer fs (a ++ b) = unpackLayer (unpackLayer fs a) b := by
  unfold unpackLayer
  rw [List.foldl_append]

/-- A path no entry writes is untouched by unpacking. -/
theorem unpackLayer_not_written (entries : List (String × String)) (fs : RootFs)
    (p : String) (h : ∀ e ∈ entries, e.1 ≠ p) :
    unpackLayer fs entries p = fs p := by
  induction entries generalizing fs with
  | nil => rfl
  | cons e rest ih =>
    have hrest : ∀ x ∈ rest, x.1 ≠ p := fun x hx => h x (List.mem_cons_of_mem e hx)
    rw [show unpackLayer fs (e :: rest) = unpackLayer (writeEntry fs e.1 e.2) rest from rfl]
    rw [ih (writeEntry fs e.1 e.2) hrest]
    unfold writeEntry
    have : ¬(p = e.1) := fun hp => h e (List.mem_cons_self e rest) hp.symm
    simp [this]

/-- The last write to a path inside one layer decides that path. -/
theorem unpackLayer_last_write (fs : RootFs) (pre post : List (String × String))
    (p c : String) (hpost : ∀ e ∈ post, e.1 ≠ p) :
    unpackLayer fs (pre ++ (p, c) :: post) p = some c := by
  rw [unpackLayer_append]
  rw [show unpackLayer (unpackLayer fs pre) ((p, c) :: post)
      = unpackLayer (writeEntry (unpackLayer fs pre) p c) post from rfl]
  rw [unpackLayer_not_written post _ p hpost]
  simp [writeEntry]

/-- C3: layers are downloaded and unpacked strictly in manifest order, so
for a manifest with layers l1 and l2 that both write the same path, the
final root is the second layer unpacked over the first, and the contested
path holds the content of the last write of the second layer. -/
theorem download_last_write_wins
    (blobStore : String → String → Except String (List (String × String)))
    (manifest : ImageManifest) (fs : RootFs) (l1 l2 : ImageLayer)
    (e1 pre post : List (String × String)) (p c c1 : String)
    (hlayers : manifest.layers = [l1, l2])
    (hb1 : blobStore l1.digest l1.media_type = .ok e1)
    (_hw1 : (p, c1) ∈ e1)
    (hb2 : blobStore l2.digest l2.media_type = .ok (pre ++ (p, c) :: post))
    (hpost : ∀ e ∈ post, e.1 ≠ p) :
    download_image_from_manifest blobStore manifest fs
        = .ok (unpackLayer (unpackLayer fs e1) (pre ++ (p, c) :: post)) ∧
      unpackLayer (unpackLayer fs e1) (pre ++ (p, c) :: post) p = some c := by
  constructor
  · unfold download_image_from_manifest
    rw [hlayers]
    unfold unpackLayers
    rw [hb1, except_bind_ok]
    unfold unpackLayers
    rw [hb2, except_bind_ok]
    rfl
  · exact unpackLayer_last_write (unpackLayer fs e1) pre post p c hpost

/-- Witness for C3: both concrete layers write the path /etc/msg and the
final content is the one the second layer wrote. -/
theorem download_last_write_wins_witness :
    download_image_from_manifest blobExample imExample (fun _ => none)
        = .ok (unpackLayer (unpackLayer (fun _ => none) [("/etc/msg", "from-l1")])
            ([] ++ ("/etc/msg", "from-l2") :: [])) ∧
      unpackLayer (unpackLayer (fun _ => none) [("/etc/msg", "from-l1")])
        ([] ++ ("/etc/msg", "from-l2") :: []) "/etc/msg" = some "from-l2" :=
  download_last_write_wins blobExample imExample (fun _ => none) layerOne layerTwo
    [("/etc/msg", "from-l1")] [] [] "/etc/msg" "from-l2" "from-l1"
    rfl rfl (by decide) rfl (by decide)

/-- Looking a path up after recording a list of directories finds a
directory for the recorded paths and falls through otherwise. -/
theorem lookupFs_append_dirs (ps : List HostPath) (fs : HostFs) (q : HostPath) :
    lookupFs ((ps.map fun r => (r, FsEntry.dir)) ++ fs) q
      = if q ∈ ps then some FsEntry.dir else lookupFs fs q := by
  induction ps with
  | nil => simp
  | cons r rs ih =>
    simp only [List.map_cons, List.cons_append, lookupFs]
    by_cases hq : q = r
    · simp [hq]
    · simp [hq, ih]

/-- A successful create_dir_all records all ancestors as directories over
the old filesystem and certifies that none of them was a regular file. -/
theorem create_dir_all_ok (fs : HostFs) (p : HostPath) (msg : String) (fs' : HostFs)
    (h : create_dir_all fs p msg = .ok fs') :
    fs' = (((ancestors p).map fun r => (r, FsEntry.dir)) ++ fs) ∧
      ∀ q ∈ ancestors p, lookupFs fs q ≠ some FsEntry.file := by
  unfold create_dir_all at h
  split at h
  · exact absurd h (by simp)
  · next hany =>
    constructor
    · exact (Except.ok.injEq _ _).mp h.symm |>.symm ▸ by
        cases h
        rfl
    · intro q hq hfile
      exact hany (List.any_eq_true.mpr ⟨q, hq, by simp [hfile]⟩)

/-- create_dir_all succeeds when no ancestor of the path is a regular
file. -/
theorem create_dir_all_succeeds (fs : HostFs) (p : HostPath) (msg : String)
    (h : ∀ q ∈ ancestors p, lookupFs fs q ≠ some FsEntry.file) :
    create_dir_all fs p msg
      = .ok (((ancestors p).map fun r => (r, FsEntry.dir)) ++ fs) := by
  unfold create_dir_all
  rw [if_neg]
  intro hany
  obtain ⟨q, hq, hfile⟩ := List.any_eq_true.mp hany
  exact h q hq (by simpa using hfile)

/-- The filesystem view after a successful create_dir_all. -/
theorem lookupFs_create (fs fs' : HostFs) (p : HostPath) (msg : String)
    (h : create_dir_all fs p msg = .ok fs') (q : HostPath) :
    lookupFs fs' q = if q ∈ ancestors p then some FsEntry.dir else lookupFs fs q := by
  obtain ⟨rfl, -⟩ := create_dir_all_ok fs p msg fs' h
  exact lookupFs_append_dirs (ancestors p) fs q

/-- No ancestor of the path p is a regular file in the filesystem. -/
def noFileAt (fs : HostFs) (p : HostPath) : Prop :=
  ∀ q ∈ ancestors p, lookupFs fs q ≠ some FsEntry.file

/-- A successful create_dir_all preserves the absence of regular files on
any ancestor chain. -/
theorem noFileAt_preserved (fs fs' : HostFs) (p r : HostPath) (msg : String)
    (h : create_dir_all fs r msg = .ok fs') (hn : noFileAt fs p) : noFileAt fs' p := by
  intro q hq
  rw [lookupFs_create fs fs' r msg h q]
  split
  · simp
  · exact hn q hq

/-- A successful bootstrap_dirs decomposes into its three successful
create_dir_all calls. -/
theorem bootstrap_dirs_ok (fs fs' : HostFs) (h : bootstrap_dirs fs = .ok fs') :
    ∃ fs1 fs2,
      create_dir_all fs CHROOT_DIR "failed to create chroot directory" = .ok fs1 ∧
      create_dir_all fs1 usrLocalBin "failed to create chroot /usr/local/bin directory"
        = .ok fs2 ∧
      create_dir_all fs2 devNullDir "failed to create chroot /dev/null directory"
        = .ok fs' := by
  unfold bootstrap_dirs at h
  cases h1 : create_dir_all fs CHROOT_DIR "failed to create chroot directory" with
  | error e =>
    rw [h1, except_bind_error] at h
    exact absurd h (by simp)
  | ok fs1 =>
    rw [h1, except_bind_ok] at h
    cases h2 : create_dir_all fs1 usrLocalBin
        "failed to create chroot /usr/local/bin directory" with
    | error e =>
      rw [h2, except_bind_error] at h
      exact absurd h (by simp)
    | ok fs2 =>
      rw [h2, except_bind_ok] at h
      exact ⟨fs1, fs2, rfl, h2, h⟩

/-- C9: the directory-creation step of the bootstrap is idempotent; a
second run against the filesystem produced by a successful first run
succeeds rather than failing on the pre-existing directories. -/
theorem bootstrap_dirs_idempotent (fs fs' : HostFs)
    (h : bootstrap_dirs fs = .ok fs') :
    ∃ fs'', bootstrap_dirs fs' = .ok fs'' := by
  obtain ⟨fs1, fs2, h1, h2, h3⟩ := bootstrap_dirs_ok fs fs' h
  have n1 : noFileAt fs CHROOT_DIR := (create_dir_all_ok _ _ _ _ h1).2
  have n2 : noFileAt fs1 usrLocalBin := (create_dir_all_ok _ _ _ _ h2).2
  have n3 : noFileAt fs2 devNullDir := (create_dir_all_ok _ _ _ _ h3).2
  have n1' : noFileAt fs' CHROOT_DIR :=
    noFileAt_preserved _ _ _ _ _ h3 (noFileAt_preserved _ _ _ _ _ h2
      (noFileAt_preserved _ _ _ _ _ h1 n1))
  have n2' : noFileAt fs' usrLocalBin :=
    noFileAt_preserved _ _ _ _ _ h3 (noFileAt_preserved _ _ _ _ _ h2 n2)
  have n3' : noFileAt fs' devNullDir := noFileAt_preserved _ _ _ _ _ h3 n3
  have c1 := create_dir_all_succeeds fs' CHROOT_DIR
    "failed to create chroot directory" n1'
  have n2a : noFileAt (((ancestors CHROOT_DIR).map fun r => (r, FsEntry.dir)) ++ fs')
      usrLocalBin := noFileAt_preserved _ _ _ _ _ c1 n2'
  have n3a : noFileAt (((ancestors CHROOT_DIR).map fun r => (r, FsEntry.dir)) ++ fs')
      devNullDir := noFileAt_preserved _ _ _ _ _ c1 n3'
  have c2 := create_dir_all_succeeds _ usrLocalBin
    "failed to create chroot /usr/local/bin directory" n2a
  have n3b := noFileAt_preserved _ _ _ _ _ c2 n3a
  have c3 := create_dir_all_succeeds _ devNullDir
    "failed to create chroot /dev/null directory" n3b
  refine ⟨List.map (fun r => (r, FsEntry.dir)) (ancestors devNullDir) ++
      (List.map (fun r => (r, FsEntry.dir)) (ancestors usrLocalBin) ++
        (List.map (fun r => (r, FsEntry.dir)) (ancestors CHROOT_DIR) ++ fs')), ?_⟩
  unfold bootstrap_dirs
  rw [c1, except_bind_ok, c2, except_bind_ok]
  exact c3

/-- Witness for C9: a first run of bootstrap_dirs on the empty filesystem
succeeds with dirsFs1, and the second run over dirsFs1 succeeds too. -/
theorem bootstrap_dirs_idempotent_witness :
    ∃ fs'', bootstrap_dirs dirsFs1 = .ok fs'' :=
  bootstrap_dirs_idempotent [] dirsFs1 rfl

/-- C8: when the bootstrap reaches the root change, the isolated root
contains the usr/local/bin subdirectory, the dev/null placeholder, and
the docker-explorer helper binary inside usr/local/bin. -/
theorem bootstrap_root_invariant (fs fs' : HostFs) (h : bootstrap fs = .ok fs') :
    lookupFs fs' usrLocalBin = some FsEntry.dir ∧
      lookupFs fs' devNullDir = some FsEntry.dir ∧
      lookupFs fs' explorerDst = some FsEntry.file := by
  unfold bootstrap at h
  cases hd : bootstrap_dirs fs with
  | error e =>
    rw [hd, except_bind_error] at h
    exact absurd h (by simp)
  | ok fs3 =>
    rw [hd, except_bind_ok] at h
    cases hc : copyFile fs3 explorerSrc explorerDst "failed to copy docker-explorer" with
    | error e =>
      rw [hc, except_bind_error] at h
      exact absurd h (by simp)
    | ok fs4 =>
      rw [hc, except_bind_ok] at h
      split at h
      · cases h
        unfold copyFile at hc
        split at hc
        · cases hc
          obtain ⟨fs1, fs2, h1, h2, h3⟩ := bootstrap_dirs_ok fs fs3 hd
          have l2 := lookupFs_create _ _ _ _ h2
          have l3 := lookupFs_create _ _ _ _ h3
          refine ⟨?_, ?_, ?_⟩
          · show lookupFs ((explorerDst, FsEntry.file) :: fs3) usrLocalBin
              = some FsEntry.dir
            rw [show lookupFs ((explorerDst, FsEntry.file) :: fs3) usrLocalBin
              = if usrLocalBin = explorerDst then some FsEntry.file
                else lookupFs fs3 usrLocalBin from rfl]
            rw [if_neg (by decide)]
            rw [l3, if_neg (by decide), l2, if_pos (by decide)]
          · show lookupFs ((explorerDst, FsEntry.file) :: fs3) devNullDir
              = some FsEntry.dir
            rw [show lookupFs ((explorerDst, FsEntry.file) :: fs3) devNullDir
              = if devNullDir = explorerDst then some FsEntry.file
                else lookupFs fs3 devNullDir from rfl]
            rw [if_neg (by decide)]
            rw [l3, if_pos (by decide)]
          · show lookupFs ((explorerDst, FsEntry.file) :: fs3) explorerDst
              = some FsEntry.file
            rw [show lookupFs ((explorerDst, FsEntry.file) :: fs3) explorerDst
              = if explorerDst = explorerDst then some FsEntry.file
                else lookupFs fs3 explorerDst from rfl]
            rw [if_pos rfl]
        · exact absurd hc (by simp)
      · exact absurd h (by simp)

/-- Witness for C8 over the host filesystem that holds only the helper
binary: the bootstrap succeeds and the three invariants hold in the
resulting state bootFs1. -/
theorem bootstrap_root_invariant_witness :
    lookupFs bootFs1 usrLocalBin = some FsEntry.dir ∧
      lookupFs bootFs1 devNullDir = some FsEntry.dir ∧
      lookupFs bootFs1 explorerDst = some FsEntry.file :=
  bootstrap_root_invariant bootFs0 bootFs1 rfl

/-- The retrieval-and-bootstrap prefix of the pipeline never reads the
command runner, so replacing the runner does not change it. -/
theorem pipelineSetup_update_rc (env : Env)
    (rc : String → List String → Except String ProcessOutput) (image : String) :
    pipelineSetup { env with runCommand := rc } image = pipelineSetup env image := rfl

/-- When the pipeline prefix fails, mainRun fails with the same error,
whatever the command runner is. -/
theorem mainRun_error_of_setup (env : Env) (image command : String)
    (cargs : List String) (e : String) (h : pipelineSetup env image = .error e) :
    mainRun env image command cargs = .error e := by
  unfold mainRun
  rw [h, except_bind_error]

/-- C5: if any stage of the pipeline, reference parsing, authentication,
manifest-list fetch, platform-manifest resolution, layer download and
unpack, or the isolation bootstrap, returns an error, then the whole
program aborts with an error, and it does so for every command runner, so
the target command is never executed. -/
theorem mainRun_fail_fast (env : Env) (image command : String) (cargs : List String)
    (h : (∃ e, parse_image image = .error e)
      ∨ (∃ nt e, parse_image image = .ok nt ∧ env.httpAuth image = .error e)
      ∨ (∃ nt tok e, parse_image image = .ok nt ∧ env.httpAuth image = .ok tok ∧
          env.httpManifestList nt.1 nt.2 tok = .error e)
      ∨ (∃ nt tok mr e, parse_image image = .ok nt ∧ env.httpAuth image = .ok tok ∧
          env.httpManifestList nt.1 nt.2 tok = .ok mr ∧
          fetch_image_manifest (fun d mt => env.httpImageManifest nt.1 tok d mt) mr
            = .error e)
      ∨ (∃ nt tok mr im e, parse_image image = .ok nt ∧ env.httpAuth image = .ok tok ∧
          env.httpManifestList nt.1 nt.2 tok = .ok mr ∧
          fetch_image_manifest (fun d mt => env.httpImageManifest nt.1 tok d mt) mr
            = .ok im ∧
          download_image_from_manifest (fun d mt => env.httpBlob nt.1 tok d mt) im
            (fun _ => none) = .error e)
      ∨ (∃ e, bootstrap env.hostFs = .error e)) :
    ∃ e, ∀ rc : String → List String → Except String ProcessOutput,
      mainRun { env with runCommand := rc } image command cargs = .error e := by
  have setup_err : ∃ e, pipelineSetup env image = .error e := by
    rcases h with ⟨e, h1⟩ | ⟨nt, e, h1, h2⟩ | ⟨nt, tok, e, h1, h2, h3⟩ |
      ⟨nt, tok, mr, e, h1, h2, h3, h4⟩ | ⟨nt, tok, mr, im, e, h1, h2, h3, h4, h5⟩ |
      ⟨e, hb⟩
    · exact ⟨e, by unfold pipelineSetup; rw [h1, except_bind_error]⟩
    · exact ⟨e, by
        unfold pipelineSetup
        rw [h1, except_bind_ok, h2, except_bind_error]⟩
    · exact ⟨e, by
        unfold pipelineSetup
        rw [h1, except_bind_ok, h2, except_bind_ok, h3, except_bind_error]⟩
    · exact ⟨e, by
        unfold pipelineSetup
        rw [h1, except_bind_ok, h2, except_bind_ok, h3, except_bind_ok, h4,
          except_bind_error]⟩
    · exact ⟨e, by
        unfold pipelineSetup
        rw [h1, except_bind_ok, h2, except_bind_ok, h3, except_bind_ok, h4,
          except_bind_ok, h5, except_bind_error]⟩
    · cases h1 : parse_image image with
      | error e1 => exact ⟨e1, by unfold pipelineSetup; rw [h1, except_bind_error]⟩
      | ok nt =>
        cases h2 : env.httpAuth image with
        | error e2 => exact ⟨e2, by
            unfold pipelineSetup
            rw [h1, except_bind_ok, h2, except_bind_error]⟩
        | ok tok =>
          cases h3 : env.httpManifestList nt.1 nt.2 tok with
          | error e3 => exact ⟨e3, by
              unfold pipelineSetup
              rw [h1, except_bind_ok, h2, except_bind_ok, h3, except_bind_error]⟩
          | ok mr =>
            cases h4 : fetch_image_manifest
                (fun d mt => env.httpImageManifest nt.1 tok d mt) mr with
            | error e4 => exact ⟨e4, by
                unfold pipelineSetup
                rw [h1, except_bind_ok, h2, except_bind_ok, h3, except_bind_ok, h4,
                  except_bind_error]⟩
            | ok im =>
              cases h5 : download_image_from_manifest
                  (fun d mt => env.httpBlob nt.1 tok d mt) im (fun _ => none) with
              | error e5 => exact ⟨e5, by
                  unfold pipelineSetup
                  rw [h1, except_bind_ok, h2, except_bind_ok, h3, except_bind_ok, h4,
                    except_bind_ok, h5, except_bind_error]⟩
              | ok rootfs => exact ⟨e, by
                  unfold pipelineSetup
                  rw [h1, except_bind_ok, h2, except_bind_ok, h3, except_bind_ok, h4,
                    except_bind_ok, h5, except_bind_ok]
                  exact hb⟩
  obtain ⟨e, hs⟩ := setup_err
  refine ⟨e, fun rc => ?_⟩
  exact mainRun_error_of_setup _ image command cargs e
    (by rw [pipelineSetup_update_rc]; exact hs)

/-- Witness for C5 with the failing auth endpoint: the program aborts
with the auth error for every command runner. -/
theorem mainRun_fail_fast_witness :
    ∃ e, ∀ rc : String → List String → Except String ProcessOutput,
      mainRun { envAuthFail with runCommand := rc } "busybox" "sh" [] = .error e :=
  mainRun_fail_fast envAuthFail "busybox" "sh" []
    (Or.inr (Or.inl ⟨("busybox", "latest"), "failed to send request", rfl, rfl⟩))

/-- C6: the program exit code equals the child exit code whenever the
child produced one, and equals 1 otherwise, for example when the child
was terminated by a signal and so has no exit code. -/
theorem mainRun_exit_code (env : Env) (image command : String) (cargs : List String)
    (rootfs : HostFs) (output : ProcessOutput)
    (hsetup : pipelineSetup env image = .ok rootfs)
    (hrun : env.runCommand command cargs = .ok output) :
    (∀ n : Int, output.code = some n → mainRun env image command cargs = .ok n) ∧
      (output.code = none → mainRun env image command cargs = .ok 1) := by
  have hmain : mainRun env image command cargs = .ok (output.code.getD 1) := by
    unfold mainRun
    rw [hsetup, except_bind_ok, hrun, except_bind_ok]
    rfl
  constructor
  · intro n hn
    rw [hmain, hn]
    rfl
  · intro hn
    rw [hmain, hn]
    rfl

/-- Witness for C6: the child exits with code 7 and the program exit code
is 7. -/
theorem mainRun_exit_code_witness :
    mainRun envSeven "busybox" "sh" [] = .ok 7 :=
  (mainRun_exit_code envSeven "busybox" "sh" [] bootFs1 { code := some 7 } rfl rfl).1 7 rfl

/-- C4 counterexample: the claim that every error, including the one of
the pid-namespace request, terminates the program is false on the code:
in an environment where the unshare call fails and everything else
succeeds, the program still completes and exits successfully, because the
source discards the return value of libc unshare. -/
theorem mainRun_unshare_failure_ignored :
    envUnshareFail.unshareResult = .error "unshare failed" ∧
      mainRun envUnshareFail "busybox" "sh" [] = .ok 0 :=
  ⟨rfl, rfl⟩

/-- C4 amended: every error returned by a pipeline stage or by spawning
the target command aborts the program with that error message, but the
pid-namespace request is the exception: its result is discarded, so the
program outcome does not depend on it at all. -/
theorem mainRun_error_policy (env : Env) (image command : String) (cargs : List String) :
    (∀ r1 r2 : Except String Unit,
      mainRun { env with unshareResult := r1 } image command cargs
        = mainRun { env with unshareResult := r2 } image command cargs) ∧
      (∀ e, pipelineSetup env image = .error e →
        mainRun env image command cargs = .error e) ∧
      (∀ rootfs e, pipelineSetup env image = .ok rootfs →
        env.runCommand command cargs = .error e →
        mainRun env image command cargs = .error e) := by
  refine ⟨fun r1 r2 => rfl, fun e h => mainRun_error_of_setup env image command cargs e h,
    fun rootfs e hs hr => ?_⟩
  unfold mainRun
  rw [hs, except_bind_ok, hr, except_bind_error]

/-- Witness for C4 amended, applying the propagation part at the failing
auth environment. -/
theorem mainRun_error_policy_witness :
    mainRun envAuthFail "busybox" "sh" [] = .error "failed to send request" :=
  (mainRun_error_policy envAuthFail "busybox" "sh" []).2.1 "failed to send request" rfl

end Docker
